import Mathlib

/-!
# Verification of `the_snake.py`

A shallow embedding of the rules engine of the grid Snake game
(`src/the_snake.py`) and proofs checking the design document's claims
against it.

Modelling conventions:
* A grid coordinate is a pair of `Int`s (Python integers); Python's `%`
  on a positive modulus agrees with `Int.emod`.
* Randomness is passed in explicitly: `random.randint` draws become a
  `List Coord` of draws (each in grid range, which is what `randint`
  guarantees), and `random.choice((UP, DOWN, LEFT, RIGHT))` becomes a
  direction argument constrained to those four values.
* Fallible operations return `Option`: `none` models an unbounded retry
  loop that never finds a free cell, or a Python exception
  (`IndexError` from `positions[0]` / `list.pop()` on an empty list).
-/

namespace TheSnake

/-- A grid cell, Python `GridCoordinates = tuple[int, int]`. -/
abbrev Coord := Int × Int

/-- `SCREEN_WIDTH` from the source. -/
def SCREEN_WIDTH : Int := 640

/-- `SCREEN_HEIGHT` from the source. -/
def SCREEN_HEIGHT : Int := 480

/-- `GRID_SIZE` from the source. -/
def GRID_SIZE : Int := 20

/-- `GRID_WIDTH = SCREEN_WIDTH // GRID_SIZE` (= 32). -/
def GRID_WIDTH : Int := SCREEN_WIDTH / GRID_SIZE

/-- `GRID_HEIGHT = SCREEN_HEIGHT // GRID_SIZE` (= 24). -/
def GRID_HEIGHT : Int := SCREEN_HEIGHT / GRID_SIZE

/-- `GRID_CENTER = (GRID_WIDTH // 2, GRID_HEIGHT // 2)` (= (16, 12)). -/
def GRID_CENTER : Coord := (GRID_WIDTH / 2, GRID_HEIGHT / 2)

/-- Move direction `UP = (0, -1)`. -/
def UP : Coord := (0, -1)

/-- Move direction `DOWN = (0, 1)`. -/
def DOWN : Coord := (0, 1)

/-- Move direction `LEFT = (-1, 0)`. -/
def LEFT : Coord := (-1, 0)

/-- Move direction `RIGHT = (1, 0)`. -/
def RIGHT : Coord := (1, 0)

/-- The component-wise reverse of a direction delta. -/
def reverseOf (d : Coord) : Coord := (-d.1, -d.2)

/-- A coordinate lies inside the grid: `0 ≤ x < GRID_WIDTH`, `0 ≤ y < GRID_HEIGHT`. -/
def inGrid (c : Coord) : Prop :=
  0 ≤ c.1 ∧ c.1 < GRID_WIDTH ∧ 0 ≤ c.2 ∧ c.2 < GRID_HEIGHT

instance (c : Coord) : Decidable (inGrid c) := by
  unfold inGrid; infer_instance

/-- The four directional pygame keys (`pygame.K_UP`, `K_DOWN`, `K_LEFT`,
`K_RIGHT`), which are the only keys `handle_events` forwards to
`Snake.handle_key_press`; the concrete integer key codes are opaque, only
their distinctness matters. -/
inductive Key where
  | up
  | down
  | left
  | right
deriving DecidableEq, Repr

/-- The `Snake` object: current `direction`, the `next_direction` buffer
(`None` or a direction), the target `length`, and the body `positions`
(head first). -/
structure Snake where
  direction : Coord
  next_direction : Option Coord
  length : Int
  positions : List Coord
deriving DecidableEq, Repr

/-- `Snake.__init__`: direction `RIGHT`, no buffered direction, length 1,
single segment at the grid center. -/
def Snake.init : Snake :=
  { direction := RIGHT
    next_direction := none
    length := 1
    positions := [GRID_CENTER] }

/-- `Snake.get_head_position`: `self.positions[0]`; indexing an empty list
raises, modelled by `Option`. -/
def Snake.get_head_position (s : Snake) : Option Coord :=
  s.positions.head?

/-- `Snake.update_direction`: commit `next_direction` into `direction` when
it is set (all direction tuples are truthy in Python, `None` is falsy). -/
def Snake.update_direction (s : Snake) : Snake :=
  match s.next_direction with
  | some d => { s with direction := d, next_direction := none }
  | none => s

/-- `Snake.handle_key_press`: set `next_direction` unless the pressed key's
direction is the reverse of the current one, then immediately call
`update_direction`. -/
def Snake.handle_key_press (s : Snake) (k : Key) : Snake :=
  Snake.update_direction <|
    match k with
    | Key.up => if s.direction ≠ DOWN then { s with next_direction := some UP } else s
    | Key.down => if s.direction ≠ UP then { s with next_direction := some DOWN } else s
    | Key.left => if s.direction ≠ RIGHT then { s with next_direction := some LEFT } else s
    | Key.right => if s.direction ≠ LEFT then { s with next_direction := some RIGHT } else s

/-- `GameController.handle_events` restricted to the core: feed each
directional `KEYDOWN` event of the tick to `handle_key_press`, in order. -/
def handle_events (s : Snake) (keys : List Key) : Snake :=
  keys.foldl Snake.handle_key_press s

/-- The new-head computation inside `Snake.move`:
`((col + add_col) % GRID_WIDTH, (row + add_row) % GRID_HEIGHT)`. -/
def wrapStep (p d : Coord) : Coord :=
  ((p.1 + d.1) % GRID_WIDTH, (p.2 + d.2) % GRID_HEIGHT)

/-- One round of the `while len(self.positions) > self.length:
self.positions.pop()` loop of `Snake.move`: while the length exceeds the
target, drop the last element; `pop` on an empty list raises (`none`).
Each iteration shortens the list by one, so the loop makes at most
`l.length` recursive calls; the explicit `fuel` argument (instantiated
with `l.length` by `popWhileGT`) only makes that termination structural,
and its zero-with-work-left branch is unreachable. -/
def popWhileGT.go (tgt : Int) : Nat → List Coord → Option (List Coord)
  | _, [] => if (0 : Int) > tgt then none else some []
  | 0, p :: ps => if ((p :: ps).length : Int) > tgt then none else some (p :: ps)
  | fuel + 1, p :: ps =>
    if ((p :: ps).length : Int) > tgt then popWhileGT.go tgt fuel (p :: ps).dropLast
    else some (p :: ps)

/-- The truncation loop of `Snake.move` (see `popWhileGT.go`). -/
def popWhileGT (tgt : Int) (l : List Coord) : Option (List Coord) :=
  popWhileGT.go tgt l.length l

/-- `Snake.move`: read the head (raises on an empty body), insert the
wrapped successor cell in front, then truncate the tail to the target
length. -/
def Snake.move (s : Snake) : Option Snake := do
  let h ← s.get_head_position
  let ps ← popWhileGT s.length (wrapStep h s.direction :: s.positions)
  some { s with positions := ps }

/-- `Snake.reset`: single segment at the grid center, length 1, and a
direction drawn by `choice((UP, DOWN, LEFT, RIGHT))`, passed in as
`newDir`; `next_direction` is untouched. -/
def Snake.reset (s : Snake) (newDir : Coord) : Snake :=
  { s with positions := [GRID_CENTER], length := 1, direction := newDir }

/-- `Apple.apply_effect`: `snake.length += 1`. -/
def Apple.apply_effect (s : Snake) : Snake :=
  { s with length := s.length + 1 }

/-- `BadApple.apply_effect`: `snake.length -= 1`. -/
def BadApple.apply_effect (s : Snake) : Snake :=
  { s with length := s.length - 1 }

/-- `Stone.apply_effect`: `snake.length = 0`. -/
def Stone.apply_effect (s : Snake) : Snake :=
  { s with length := 0 }

/-- `generate_random_coordinates`: draw random cells, rejecting any draw in
`occupied_coordinates`, until a free one is found. The `randint` stream is
the explicit `draws` list; a stream whose draws are all occupied models
the non-terminating retry loop as `none`. -/
def generate_random_coordinates (draws : List Coord)
    (occupied_coordinates : List Coord) : Option Coord :=
  draws.find? (fun c => !(occupied_coordinates.contains c))

/-- `EatableObject.randomize_position`: the occupied set defaults to the
empty list when the caller passes `None`. -/
def EatableObject.randomize_position (draws : List Coord)
    (occupied_coordinates : Option (List Coord)) : Option Coord :=
  generate_random_coordinates draws (occupied_coordinates.getD [])

/-- The random inputs one controller step may consume: the `choice` result
used by `Snake.reset` and one `randint` draw stream per eatable object. -/
structure Rng where
  dirPick : Coord
  appleDraws : List Coord
  badAppleDraws : List Coord
  stoneDraws : List Coord
deriving DecidableEq, Repr

/-- The state owned by `GameController`: the snake and the positions of the
apple, the bad apple and the stone. -/
structure GameState where
  snake : Snake
  apple : Coord
  bad_apple : Coord
  stone : Coord
deriving DecidableEq, Repr

/-- `GameController.occupied_coordinates`:
`snake.positions + [apple.position, bad_apple.position, stone.position]`. -/
def GameState.occupied_coordinates (g : GameState) : List Coord :=
  g.snake.positions ++ [g.apple, g.bad_apple, g.stone]

/-- `GameController.__init__`: a fresh snake, then each eatable object is
constructed, and `EatableObject.__init__` randomizes its position with NO
occupied set (so nothing is excluded at the initial spawn). -/
def GameController.init (rng : Rng) : Option GameState := do
  let snake := Snake.init
  let apple ← EatableObject.randomize_position rng.appleDraws none
  let bad_apple ← EatableObject.randomize_position rng.badAppleDraws none
  let stone ← EatableObject.randomize_position rng.stoneDraws none
  some { snake := snake, apple := apple, bad_apple := bad_apple, stone := stone }

/-- `GameController.reset`: reset the snake, then re-randomize the apple,
the bad apple and the stone in that order, each against the occupied set
recomputed at its call (so each set still contains the object's own old
position and the not-yet-respawned objects' old positions). -/
def GameController.reset (rng : Rng) (g : GameState) : Option GameState := do
  let s := g.snake.reset rng.dirPick
  let apple ← EatableObject.randomize_position rng.appleDraws
    (some (s.positions ++ [g.apple, g.bad_apple, g.stone]))
  let bad_apple ← EatableObject.randomize_position rng.badAppleDraws
    (some (s.positions ++ [apple, g.bad_apple, g.stone]))
  let stone ← EatableObject.randomize_position rng.stoneDraws
    (some (s.positions ++ [apple, bad_apple, g.stone]))
  some { snake := s, apple := apple, bad_apple := bad_apple, stone := stone }

/-- `GameController.check_snake_collision`: compare the head (at its
CURRENT, pre-move position) with each eatable object in order apple, bad
apple, stone — on the first match `snake.eat` applies the object's effect
and re-randomizes it against `occupied_coordinates`, and the check stops.
Otherwise, if the head lies in the rest of the body, the whole game is
reset. -/
def GameController.check_snake_collision (rng : Rng) (g : GameState) :
    Option GameState := do
  let head ← g.snake.get_head_position
  if head = g.apple then
    let s := Apple.apply_effect g.snake
    let apple ← EatableObject.randomize_position rng.appleDraws
      (some g.occupied_coordinates)
    some { g with snake := s, apple := apple }
  else if head = g.bad_apple then
    let s := BadApple.apply_effect g.snake
    let bad_apple ← EatableObject.randomize_position rng.badAppleDraws
      (some g.occupied_coordinates)
    some { g with snake := s, bad_apple := bad_apple }
  else if head = g.stone then
    let s := Stone.apply_effect g.snake
    let stone ← EatableObject.randomize_position rng.stoneDraws
      (some g.occupied_coordinates)
    some { g with snake := s, stone := stone }
  else if head ∈ g.snake.positions.tail then
    GameController.reset rng g
  else
    some g

/-- One iteration of the `main` loop (the core part): handle the tick's
directional key events, run the collision check, reset the game if the
snake's length reached 0, then move the snake. `rngC` feeds the collision
check, `rngR` the death-reset. -/
def mainTick (keys : List Key) (rngC rngR : Rng) (g : GameState) :
    Option GameState := do
  let g1 := { g with snake := handle_events g.snake keys }
  let g2 ← GameController.check_snake_collision rngC g1
  let g3 ← if g2.snake.length = 0 then GameController.reset rngR g2 else some g2
  let s ← g3.snake.move
  some { g3 with snake := s }

/-- `singleton` decorator: the memo cell (`instance`, initially `None`) is
threaded explicitly; a call constructs `cls args` only when the cell is
empty, stores it, and always returns the cell's content together with the
updated cell. -/
def singletonCall {A B : Type} (cell : Option B) (cls : A → B) (args : A) :
    B × Option B :=
  match cell with
  | none => (cls args, some (cls args))
  | some b => (b, some b)

/-! Concrete test fixtures for the scenario claims. -/

/-- Fixture: the spec's food scenario start state — single-segment snake at
`(10,12)` facing `RIGHT`, apple at `(11,12)`; bad apple and stone parked at
`(0,0)` and `(1,1)`, away from the action. -/
def c1start : GameState :=
  { snake := { direction := RIGHT, next_direction := none, length := 1
               positions := [(10, 12)] }
    apple := (11, 12), bad_apple := (0, 0), stone := (1, 1) }

/-- Fixture: random inputs for the first food-scenario tick (none are
consumed by it). -/
def c1rngA : Rng :=
  { dirPick := UP, appleDraws := [], badAppleDraws := [], stoneDraws := [] }

/-- Fixture: random inputs for the second food-scenario tick — the apple
respawn draws `(0,5)`, a free cell. -/
def c1rngB : Rng :=
  { dirPick := UP, appleDraws := [(0, 5)], badAppleDraws := [], stoneDraws := [] }

/-- Fixture: the food-scenario state after one tick. -/
def c1mid : GameState :=
  { snake := { direction := RIGHT, next_direction := none, length := 1
               positions := [(11, 12)] }
    apple := (11, 12), bad_apple := (0, 0), stone := (1, 1) }

/-- Fixture: the food-scenario state after two ticks. -/
def c1end : GameState :=
  { snake := { direction := RIGHT, next_direction := none, length := 2
               positions := [(12, 12), (11, 12)] }
    apple := (0, 5), bad_apple := (0, 0), stone := (1, 1) }

/-- Fixture: a self-collided state — the head `(5,4)` reappears in the
tail — with all three eatable objects away from the head. -/
def c3state : GameState :=
  { snake := { direction := RIGHT, next_direction := none, length := 5
               positions := [(5, 4), (4, 4), (4, 5), (5, 5), (5, 4)] }
    apple := (0, 0), bad_apple := (0, 1), stone := (0, 2) }

/-- Fixture: random inputs for the self-collision check — direction draw
`UP`, respawn draws `(9,9)`, `(8,8)`, `(7,7)`, all free. -/
def c3rng : Rng :=
  { dirPick := UP, appleDraws := [(9, 9)], badAppleDraws := [(8, 8)]
    stoneDraws := [(7, 7)] }

/-- Fixture: the state `check_snake_collision c3rng c3state` produces. -/
def c3after : GameState :=
  { snake := { direction := UP, next_direction := none, length := 1
               positions := [GRID_CENTER] }
    apple := (9, 9), bad_apple := (8, 8), stone := (7, 7) }

/-- Fixture: a two-segment snake heading `RIGHT`, its second segment
directly behind the head. -/
def c2snake : Snake :=
  { direction := RIGHT, next_direction := none, length := 2
    positions := [(16, 12), (15, 12)] }

/-! ## Helper lemmas -/

/-- A successful draw of `generate_random_coordinates` comes from the draw
stream and avoids the occupied list. -/
lemma generate_random_coordinates_spec {draws occ : List Coord} {c : Coord}
    (h : generate_random_coordinates draws occ = some c) :
    c ∈ draws ∧ c ∉ occ := by
  unfold generate_random_coordinates at h
  refine ⟨List.mem_of_find?_eq_some h, ?_⟩
  have hp := List.find?_some h
  simpa using hp

/-- If some draw in the stream is free, `generate_random_coordinates`
succeeds. -/
lemma generate_random_coordinates_isSome {draws occ : List Coord}
    (h : ∃ d ∈ draws, d ∉ occ) :
    ∃ c, generate_random_coordinates draws occ = some c := by
  unfold generate_random_coordinates
  obtain ⟨d, hd, hdo⟩ := h
  have hs : (draws.find? (fun c => !(occ.contains c))).isSome = true :=
    List.find?_isSome.mpr ⟨d, hd, by simpa using hdo⟩
  exact Option.isSome_iff_exists.mp hs

/-- A successful `randomize_position` against a supplied occupied set
avoids that set. -/
lemma randomize_position_not_mem {draws occ : List Coord} {c : Coord}
    (h : EatableObject.randomize_position draws (some occ) = some c) :
    c ∉ occ := by
  unfold EatableObject.randomize_position at h
  exact (generate_random_coordinates_spec (by simpa using h)).2

/-- The truncation loop computes `List.take` of the (non-negative) target
length, given enough fuel. -/
lemma popWhileGT_go_eq_take (tgt : Int) (ht : 0 ≤ tgt) :
    ∀ (fuel : Nat) (l : List Coord), l.length ≤ fuel →
      popWhileGT.go tgt fuel l = some (l.take tgt.toNat) := by
  intro fuel
  induction fuel with
  | zero =>
    intro l hl
    have : l = [] := List.length_eq_zero.mp (Nat.le_zero.mp hl)
    subst this
    simp [popWhileGT.go, not_lt.mpr ht]
  | succ n ih =>
    intro l hl
    match l with
    | [] => simp [popWhileGT.go, not_lt.mpr ht]
    | p :: ps =>
      have hstep : popWhileGT.go tgt (n + 1) (p :: ps) =
          if ((p :: ps).length : Int) > tgt then
            popWhileGT.go tgt n (p :: ps).dropLast
          else some (p :: ps) := rfl
      by_cases hgt : ((p :: ps).length : Int) > tgt
      · have hlen : (p :: ps).dropLast.length ≤ n := by
          rw [List.length_dropLast]
          simp only [List.length_cons] at hl ⊢
          omega
        rw [hstep, if_pos hgt, ih _ hlen, List.dropLast_eq_take, List.take_take]
        have hmin : tgt.toNat ⊓ ((p :: ps).length - 1) = tgt.toNat := by
          simp only [List.length_cons] at hgt ⊢
          omega
        rw [hmin]
      · have hle : (p :: ps).length ≤ tgt.toNat := by
          simp only [List.length_cons] at hgt ⊢
          omega
        rw [hstep, if_neg hgt, List.take_of_length_le hle]

/-- The truncation loop of `Snake.move` computes `List.take` of a
non-negative target length. -/
lemma popWhileGT_eq_take (tgt : Int) (ht : 0 ≤ tgt) (l : List Coord) :
    popWhileGT tgt l = some (l.take tgt.toNat) :=
  popWhileGT_go_eq_take tgt ht l.length l le_rfl

/-! ## Claim theorems -/

/-- Claim C1, counterexample: from the snake a single segment at `(10,12)`
facing `RIGHT` with the apple at `(11,12)`, ONE tick does NOT detect the
food contact: the pre-move check compares the head's current position
`(10,12)` with the apple, so the length stays 1 (not 2), the apple does
not respawn, and the snake ends the tick as the single segment
`[(11,12)]`, not `[(11,12),(10,12)]`. -/
theorem C1_counterexample :
    mainTick [] c1rngA c1rngA c1start = some c1mid ∧
    c1mid.snake.length = 1 ∧ c1mid.snake.length ≠ 2 ∧
    c1mid.apple = c1start.apple ∧
    c1mid.snake.positions ≠ [(11, 12), (10, 12)] := by decide

/-- Claim C1 (corrected): from the snake a single segment at `(10,12)`
facing `RIGHT` with the apple at `(11,12)`, the first tick detects no
contact and only moves the head onto the apple's cell; the SECOND tick's
pre-move check detects the contact, increments the length to 2, respawns
the apple outside the occupied set, and after that tick's move the snake
occupies exactly `[(12,12),(11,12)]`. -/
theorem C1_food_contact_second_tick :
    mainTick [] c1rngA c1rngA c1start = some c1mid ∧
    c1mid.apple = c1start.apple ∧
    c1mid.snake.length = c1start.snake.length ∧
    mainTick [] c1rngB c1rngB c1mid = some c1end ∧
    c1end.snake.length = 2 ∧
    c1end.snake.positions = [(12, 12), (11, 12)] ∧
    c1end.apple ∉ c1mid.occupied_coordinates := by decide

/-- Claim C2 (code bug), evaluated at the failing input: with the snake
facing `RIGHT`, pressing `K_UP` and then `K_LEFT` within the same tick
leaves the direction at `LEFT`, the exact reverse of the pre-tick
direction — `handle_key_press` commits each press immediately via
`update_direction`, so the second press is filtered against `UP`, not
against the pre-tick `RIGHT`. The subsequent move sends the head onto the
cell of the second body segment: the snake reverses into itself. -/
theorem C2_reversal_at_failing_input :
    (handle_events c2snake [Key.up, Key.left]).direction = reverseOf c2snake.direction ∧
    Snake.move (handle_events c2snake [Key.up, Key.left]) =
      some { direction := LEFT, next_direction := none, length := 2
             positions := [(15, 12), (16, 12)] } ∧
    (15, 12) ∈ c2snake.positions.tail := by decide

/-- Claim C3, counterexample: when the self-collision branch of
`check_snake_collision` fires (head `(5,4)` is in the tail and matches no
eatable object), the whole game is reset: every entity's position IS
mutated (each is re-randomized), and the snake is not left marked Dead —
its length is 1, not 0. -/
theorem C3_counterexample :
    c3state.snake.get_head_position = some (5, 4) ∧
    (5, 4) ∈ c3state.snake.positions.tail ∧
    GameController.check_snake_collision c3rng c3state = some c3after ∧
    c3after.apple ≠ c3state.apple ∧
    c3after.bad_apple ≠ c3state.bad_apple ∧
    c3after.stone ≠ c3state.stone ∧
    c3after.snake.length ≠ 0 := by decide

/-- Claim C3 (corrected): whenever the self-collision branch of
`check_snake_collision` fires — the head is a member of the body without
the head, and matches no eatable object — the controller resets the WHOLE
game rather than merely marking the snake Dead: the snake returns to the
canonical single segment at the board center with length 1 (not 0), and
every entity IS mutated — each is respawned, necessarily away from its own
previous position, the other entities' pre-respawn positions and the reset
snake body (no entity effect is applied: the snake ends exactly in the
reset state). -/
theorem C3_self_collision_resets_game (rng : Rng) (g : GameState) (head : Coord)
    (g' : GameState)
    (hhead : g.snake.get_head_position = some head)
    (ha : head ≠ g.apple) (hb : head ≠ g.bad_apple) (hs : head ≠ g.stone)
    (hter : head ∈ g.snake.positions.tail)
    (hrun : GameController.check_snake_collision rng g = some g') :
    g'.snake = g.snake.reset rng.dirPick ∧
    g'.snake.positions = [GRID_CENTER] ∧
    g'.snake.length = 1 ∧
    g'.apple ∉ (g.snake.reset rng.dirPick).positions ++ [g.apple, g.bad_apple, g.stone] ∧
    g'.bad_apple ∉ (g.snake.reset rng.dirPick).positions ++ [g'.apple, g.bad_apple, g.stone] ∧
    g'.stone ∉ (g.snake.reset rng.dirPick).positions ++ [g'.apple, g'.bad_apple, g.stone] ∧
    g'.apple ≠ g.apple ∧ g'.bad_apple ≠ g.bad_apple ∧ g'.stone ≠ g.stone := by
  have hred : GameController.check_snake_collision rng g = GameController.reset rng g := by
    unfold GameController.check_snake_collision
    rw [hhead]
    simp [ha, hb, hs, hter]
  rw [hred] at hrun
  unfold GameController.reset at hrun
  simp only [bind, Option.bind_eq_some] at hrun
  obtain ⟨a, hA, hrun⟩ := hrun
  obtain ⟨b, hB, hrun⟩ := hrun
  obtain ⟨c, hC, hrun⟩ := hrun
  have hAn := randomize_position_not_mem hA
  have hBn := randomize_position_not_mem hB
  have hCn := randomize_position_not_mem hC
  cases hrun
  refine ⟨rfl, rfl, rfl, hAn, hBn, hCn, ?_, ?_, ?_⟩ <;> dsimp only
  · intro h; subst h; exact hAn (by simp)
  · intro h; subst h; exact hBn (by simp)
  · intro h; subst h; exact hCn (by simp)

/-- Claim C3, witness: the corrected self-collision property at the
concrete self-collided fixture state. -/
theorem C3_witness :
    (c3state.snake.get_head_position = some (5, 4) ∧
     ((5, 4) : Coord) ≠ c3state.apple ∧
     ((5, 4) : Coord) ≠ c3state.bad_apple ∧
     ((5, 4) : Coord) ≠ c3state.stone ∧
     ((5, 4) : Coord) ∈ c3state.snake.positions.tail ∧
     GameController.check_snake_collision c3rng c3state = some c3after) ∧
    (c3after.snake = c3state.snake.reset c3rng.dirPick ∧
     c3after.snake.positions = [GRID_CENTER] ∧
     c3after.snake.length = 1 ∧
     c3after.apple ∉ (c3state.snake.reset c3rng.dirPick).positions
        ++ [c3state.apple, c3state.bad_apple, c3state.stone] ∧
     c3after.bad_apple ∉ (c3state.snake.reset c3rng.dirPick).positions
        ++ [c3after.apple, c3state.bad_apple, c3state.stone] ∧
     c3after.stone ∉ (c3state.snake.reset c3rng.dirPick).positions
        ++ [c3after.apple, c3after.bad_apple, c3state.stone] ∧
     c3after.apple ≠ c3state.apple ∧
     c3after.bad_apple ≠ c3state.bad_apple ∧
     c3after.stone ≠ c3state.stone) :=
  ⟨⟨by decide, by decide, by decide, by decide, by decide, by decide⟩,
   C3_self_collision_resets_game c3rng c3state (5, 4) c3after (by decide)
     (by decide) (by decide) (by decide) (by decide) (by decide)⟩

/-- Claim C4, counterexample: `Snake.reset` draws its direction by
`choice((UP, DOWN, LEFT, RIGHT))`; with the legitimate draw `UP` the reset
state faces `UP`, not `RIGHT`, and two consecutive resets (draws `RIGHT`
then `UP`) do not produce identical states. -/
theorem C4_counterexample :
    (Snake.init.reset UP).direction ≠ RIGHT ∧
    ((Snake.init.reset RIGHT).reset UP).direction
      ≠ (Snake.init.reset RIGHT).direction := by decide

/-- Claim C4 (corrected): for every snake state, `reset` produces the
single segment `[GRID_CENTER]` with target length 1 and a direction drawn
from the four unit directions; resetting twice in a row reproduces the
same positions and length both times (only the random direction may
differ). -/
theorem C4_reset_canonical (s : Snake) (d1 d2 : Coord)
    (h1 : d1 ∈ [UP, DOWN, LEFT, RIGHT]) (h2 : d2 ∈ [UP, DOWN, LEFT, RIGHT]) :
    (s.reset d1).positions = [GRID_CENTER] ∧
    (s.reset d1).length = 1 ∧
    (s.reset d1).direction ∈ [UP, DOWN, LEFT, RIGHT] ∧
    ((s.reset d1).reset d2).positions = (s.reset d1).positions ∧
    ((s.reset d1).reset d2).length = (s.reset d1).length ∧
    ((s.reset d1).reset d2).direction ∈ [UP, DOWN, LEFT, RIGHT] := by
  unfold Snake.reset
  exact ⟨rfl, rfl, h1, rfl, rfl, h2⟩

/-- Claim C4, witness: the corrected reset property at the initial snake
with direction draws `UP` then `DOWN`. -/
theorem C4_witness :
    (UP ∈ [UP, DOWN, LEFT, RIGHT] ∧ DOWN ∈ [UP, DOWN, LEFT, RIGHT]) ∧
    ((Snake.init.reset UP).positions = [GRID_CENTER] ∧
     (Snake.init.reset UP).length = 1 ∧
     (Snake.init.reset UP).direction ∈ [UP, DOWN, LEFT, RIGHT] ∧
     ((Snake.init.reset UP).reset DOWN).positions = (Snake.init.reset UP).positions ∧
     ((Snake.init.reset UP).reset DOWN).length = (Snake.init.reset UP).length ∧
     ((Snake.init.reset UP).reset DOWN).direction ∈ [UP, DOWN, LEFT, RIGHT]) :=
  ⟨⟨by decide, by decide⟩, C4_reset_canonical Snake.init UP DOWN (by decide) (by decide)⟩

/-- Claim C5, counterexample: `move` on a single-segment snake whose
target length is already 0 leaves `positions` EMPTY — there is no
transition to Dead guarding emptiness inside `move` itself (the main loop
avoids this only because its death check runs before `move`). -/
theorem C5_counterexample :
    Snake.move { direction := RIGHT, next_direction := none, length := 0
                 positions := [GRID_CENTER] } =
      some { direction := RIGHT, next_direction := none, length := 0
             positions := [] } := by decide

/-- Claim C5 (corrected): for every snake with a non-empty body AND target
length at least 1, `move` prepends the wrapped successor of the head and
truncates the tail down to the target length, never leaving `positions`
empty (with target length 0 the body does become empty, see the
counterexample). -/
theorem C5_move_keeps_nonempty (s : Snake) (hd : Coord)
    (hhead : s.get_head_position = some hd) (hlen : 1 ≤ s.length) :
    s.move = some { s with positions :=
        (wrapStep hd s.direction :: s.positions).take s.length.toNat } ∧
    (wrapStep hd s.direction :: s.positions).take s.length.toNat ≠ [] := by
  have ht : (0 : Int) ≤ s.length := by omega
  constructor
  · unfold Snake.move
    rw [hhead]
    show (popWhileGT s.length (wrapStep hd s.direction :: s.positions)).bind _ = _
    rw [popWhileGT_eq_take s.length ht]
    rfl
  · obtain ⟨k, hk⟩ : ∃ k, s.length.toNat = k + 1 := ⟨s.length.toNat - 1, by omega⟩
    rw [hk, List.take_succ_cons]
    simp

/-- Claim C5, witness: the corrected move property at the initial snake. -/
theorem C5_witness :
    Snake.init.get_head_position = some (16, 12) ∧ (1 : Int) ≤ Snake.init.length ∧
    (Snake.move Snake.init = some { Snake.init with positions :=
        ((wrapStep (16, 12) Snake.init.direction :: Snake.init.positions).take
          Snake.init.length.toNat) } ∧
     (wrapStep (16, 12) Snake.init.direction :: Snake.init.positions).take
        Snake.init.length.toNat ≠ []) :=
  ⟨by decide, by decide, C5_move_keeps_nonempty Snake.init (16, 12) (by decide) (by decide)⟩

/-- Claim C6, counterexample: `BadApple.apply_effect` has no clamp — on a
snake whose length is already 0 it drives the length to `-1`, which is
negative. -/
theorem C6_counterexample :
    (BadApple.apply_effect { direction := RIGHT, next_direction := none
                             length := 0, positions := [GRID_CENTER] }).length = -1 ∧
    ¬ (0 ≤ (BadApple.apply_effect { direction := RIGHT, next_direction := none
                                    length := 0, positions := [GRID_CENTER] }).length) := by
  decide

/-- Claim C6 (corrected): no clamp exists in the code; the length stays
non-negative after any single entity effect only on snakes whose length is
at least 1 (which is all the main loop ever feeds to the collision check,
since its death check resets the snake before the next check). -/
theorem C6_effects_keep_nonneg (s : Snake) (h : 1 ≤ s.length) :
    0 ≤ (Apple.apply_effect s).length ∧
    0 ≤ (BadApple.apply_effect s).length ∧
    0 ≤ (Stone.apply_effect s).length := by
  unfold Apple.apply_effect BadApple.apply_effect Stone.apply_effect
  dsimp only
  exact ⟨by omega, by omega, by omega⟩

/-- Claim C6, witness: the corrected effect property at the initial
snake. -/
theorem C6_witness :
    (1 : Int) ≤ Snake.init.length ∧
    (0 ≤ (Apple.apply_effect Snake.init).length ∧
     0 ≤ (BadApple.apply_effect Snake.init).length ∧
     0 ≤ (Stone.apply_effect Snake.init).length) :=
  ⟨by decide, C6_effects_keep_nonneg Snake.init (by decide)⟩

/-- Claim C7, counterexample: the initial spawn at construction excludes
nothing — `EatableObject.__init__` calls `randomize_position` with no
occupied set — so with the legitimate first draw `GRID_CENTER` the apple
spawns exactly on the snake's body cell. -/
theorem C7_counterexample :
    GameController.init
        { dirPick := UP, appleDraws := [GRID_CENTER]
          badAppleDraws := [(1, 1)], stoneDraws := [(2, 2)] } =
      some { snake := Snake.init, apple := GRID_CENTER
             bad_apple := (1, 1), stone := (2, 2) } ∧
    GRID_CENTER ∈ Snake.init.positions := by decide

/-- Claim C7 (corrected): whenever `randomize_position` is given an
occupied set (as at every respawn triggered by the controller), the
resulting position avoids every member of that set; only the initial
construction-time spawn passes no occupied set and may collide. -/
theorem C7_respawn_avoids_occupied (draws occ : List Coord) (c : Coord)
    (h : EatableObject.randomize_position draws (some occ) = some c) :
    c ∉ occ :=
  randomize_position_not_mem h

/-- Claim C7, witness: the corrected respawn property at a concrete draw
stream and occupied set. -/
theorem C7_witness :
    EatableObject.randomize_position [(2, 3)] (some [(0, 0)]) = some (2, 3) ∧
    ((2, 3) : Coord) ∉ ([(0, 0)] : List Coord) :=
  ⟨by decide, C7_respawn_avoids_occupied [(2, 3)] [(0, 0)] (2, 3) (by decide)⟩

/-- Claim C8 (confirmed): whenever the draw stream (every element of which
lies in the grid, as `randint` guarantees) contains at least one draw
outside the occupied set — which is eventually almost sure exactly when
the occupied set does not cover the board — `generate_random_coordinates`
returns a coordinate that avoids the occupied set and lies inside the
grid. -/
theorem C8_spawner_pick_free_and_in_grid (draws occupied : List Coord)
    (hrange : ∀ d ∈ draws, inGrid d) (hfree : ∃ d ∈ draws, d ∉ occupied) :
    ∃ c, generate_random_coordinates draws occupied = some c ∧
      c ∉ occupied ∧ inGrid c := by
  obtain ⟨c, hc⟩ := generate_random_coordinates_isSome hfree
  obtain ⟨hmem, hnot⟩ := generate_random_coordinates_spec hc
  exact ⟨c, hc, hnot, hrange c hmem⟩

/-- Claim C8, witness: the spawner property at a concrete draw stream and
occupied set. -/
theorem C8_witness :
    (∀ d ∈ ([(3, 4)] : List Coord), inGrid d) ∧
    (∃ d ∈ ([(3, 4)] : List Coord), d ∉ ([(0, 0)] : List Coord)) ∧
    (∃ c, generate_random_coordinates [(3, 4)] [(0, 0)] = some c ∧
      c ∉ ([(0, 0)] : List Coord) ∧ inGrid c) :=
  ⟨by decide, by decide,
    C8_spawner_pick_free_and_in_grid [(3, 4)] [(0, 0)] (by decide) (by decide)⟩

/-- Claim C9 (confirmed): the wrapped successor cell computed inside
`Snake.move` — adding the direction delta and reducing each axis modulo
the grid dimensions — lies inside the grid, for every position and every
delta. -/
theorem C9_wrap_in_grid (p d : Coord) : inGrid (wrapStep p d) := by
  unfold inGrid wrapStep
  exact ⟨Int.emod_nonneg _ (by decide), Int.emod_lt_of_pos _ (by decide),
    Int.emod_nonneg _ (by decide), Int.emod_lt_of_pos _ (by decide)⟩

/-- Claim C10 (confirmed): the `singleton` decorator's call is idempotent —
a call on the empty cell constructs and stores `cls args`, and any later
call (any arguments, even any constructor function) returns that same
stored instance with the cell unchanged, without re-running
construction. -/
theorem C10_singleton_idempotent {A B : Type} (cls cls2 : A → B) (a1 a2 : A) :
    singletonCall (none : Option B) cls a1 = (cls a1, some (cls a1)) ∧
    singletonCall (singletonCall (none : Option B) cls a1).2 cls2 a2
      = (cls a1, some (cls a1)) :=
  ⟨rfl, rfl⟩

end TheSnake
